import Mathlib

/-!
# Verification of the python-colorspace conversion engine

A shallow embedding of `colorspace/colorlib.py` (classes `colorlib`,
`colorobject` and the ten space-specific color classes) and of the
HCL-coordinate computation of `colorspace/palettes.py::diverge_hcl.colors`.

Channel vectors are embedded as `List ℝ`; numpy float arrays become lists of
real numbers and the elementwise loops of the source become list recursions.
`numpy.arctan2`, `numpy.power`, `numpy.sqrt`, `cos` and `sin` are modelled by
the corresponding real functions.  IEEE NaN has no counterpart in `ℝ`; the
NaN sentinel produced for invalid hex strings / out-of-gamut values is
modelled by `Option` on the hex side (`none` = `numpy.nan` entry) and by the
constant `npNan` on the numeric side; no theorem below depends on NaN
propagation.
-/

namespace Colorspace

noncomputable section

open Real

/-- `colorlib._KAPPA = 24389.0 / 27.0`. -/
def KAPPA : ℝ := 24389.0 / 27.0

/-- `colorlib._EPSILON = 216.0 / 24389.0`. -/
def EPSILON : ℝ := 216.0 / 24389.0

/-- Placeholder for numpy's NaN payload in numeric vectors (`ℝ` has no NaN;
no theorem in this file depends on the value). -/
def npNan : ℝ := 0

/-- `colorlib.DEG2RAD`: `np.pi / 180. * x`. -/
def DEG2RAD (x : ℝ) : ℝ := Real.pi / 180 * x

/-- `colorlib.RAD2DEG`: `180. / np.pi * x`. -/
def RAD2DEG (x : ℝ) : ℝ := 180 / Real.pi * x

/-- Model of `numpy.arctan2 y x` (note numpy's argument order: `y` first),
the angle of the point `(x, y)` in `(-π, π]`. -/
def arctan2 (y x : ℝ) : ℝ :=
  if 0 < x then Real.arctan (y / x)
  else if x < 0 then
    (if 0 ≤ y then Real.arctan (y / x) + Real.pi else Real.arctan (y / x) - Real.pi)
  else -- x = 0
    (if 0 < y then Real.pi / 2 else if y < 0 then -(Real.pi / 2) else 0)

/-- The hue normalisation loop `while val > 360.: val -= 360.` of
`LAB_to_polarLAB` / `LUV_to_polarLUV`. -/
def hueSubLoop (x : ℝ) : ℝ :=
  if h : x > 360 then hueSubLoop (x - 360) else x
termination_by (Int.ceil (x / 360)).toNat
decreasing_by
  have h1 : (1 : ℝ) < x / 360 := (lt_div_iff₀ (by norm_num)).mpr (by linarith)
  have hc : (1 : ℤ) < Int.ceil (x / 360) := by
    exact_mod_cast Int.lt_ceil.mpr (by exact_mod_cast h1)
  have hsub : (x - 360) / 360 = x / 360 - 1 := by ring
  have h2 : Int.ceil ((x - 360) / 360) = Int.ceil (x / 360) - 1 := by
    rw [hsub]
    exact_mod_cast Int.ceil_sub_int (x / 360) 1
  have h3 : Int.ceil ((x - 360) / 360) < Int.ceil (x / 360) := by omega
  exact (Int.toNat_lt_toNat (by omega)).mpr h3

/-- The hue normalisation loop `while val < 0.: val += 360.` of
`LAB_to_polarLAB` / `LUV_to_polarLUV`. -/
def hueAddLoop (x : ℝ) : ℝ :=
  if h : x < 0 then hueAddLoop (x + 360) else x
termination_by (Int.ceil (-x / 360)).toNat
decreasing_by
  have h1 : (0 : ℝ) < -x / 360 := div_pos (by linarith) (by norm_num)
  have hc : (0 : ℤ) < Int.ceil (-x / 360) := by
    exact_mod_cast Int.lt_ceil.mpr (by exact_mod_cast h1)
  have hsub : -(x + 360) / 360 = -x / 360 - 1 := by ring
  have h2 : Int.ceil (-(x + 360) / 360) = Int.ceil (-x / 360) - 1 := by
    rw [hsub]
    exact_mod_cast Int.ceil_sub_int (-x / 360) 1
  have h3 : Int.ceil (-(x + 360) / 360) < Int.ceil (-x / 360) := by omega
  exact (Int.toNat_lt_toNat hc).mpr h3

/-- Full hue wrap applied per element by both polar conversions:
first the `-= 360` loop, then the `+= 360` loop. -/
def hueWrap (x : ℝ) : ℝ := hueAddLoop (hueSubLoop x)

/-- Elementwise map over three equal-length vectors (the vectorised numpy
arithmetic of the source). -/
def map3 (f : ℝ → ℝ → ℝ → ℝ) : List ℝ → List ℝ → List ℝ → List ℝ
  | a :: as, b :: bs, c :: cs => f a b c :: map3 f as bs cs
  | _, _, _ => []

/-- Python's `int(x)` / `np.asarray(x, dtype=int)`: truncation towards zero. -/
def pyInt (x : ℝ) : ℤ := if 0 ≤ x then Int.floor x else Int.ceil x

/-- Gamma recycling done at the head of `gtrans` / `ftrans` /
`sRGB_to_RGB` / `RGB_to_sRGB`:
`if len(gamma) == 1 and not len(gamma) == len(u): gamma = np.repeat(gamma, len(u))`. -/
def recycleGamma (gamma : List ℝ) (n : ℕ) : List ℝ :=
  if gamma.length = 1 ∧ ¬ gamma.length = n then List.replicate n (gamma.headD 0) else gamma

/-- Body of the `gtrans` loop for one element `val` with gamma `g`:
`1.055 * val**(1/g) - 0.055` above the `0.00304` threshold, else `12.92 * val`. -/
def gtransVal (val g : ℝ) : ℝ :=
  if val > 0.00304 then 1.055 * val ^ (1 / g) - 0.055 else 12.92 * val

/-- Body of the `ftrans` loop for one element `val` with gamma `g`. -/
def ftransVal (val g : ℝ) : ℝ :=
  if val > 0.03928 then ((val + 0.055) / 1.055) ^ g else val / 12.92

/-- The in-place loop `for i,val in np.ndenumerate(u): u[i] = ...` of
`colorlib.gtrans`/`ftrans`, parameterised by the per-element body `f`.
`loopInPlace f gamma i u` is the contents of the array `u` from index `i` on
after the loop has run; the source then returns the very array it mutated. -/
def loopInPlace (f : ℝ → ℝ → ℝ) (gamma : List ℝ) (i : ℕ) (u : List ℝ) : List ℝ :=
  if h : i < u.length then
    loopInPlace f gamma (i + 1) (u.set i (f u[i] (gamma.getD i 0)))
  else u
termination_by u.length - i
decreasing_by simp only [List.length_set]; omega

/-- `colorlib.gtrans(u, gamma)`: recycles `gamma`, then overwrites every
`u[i]` with the gamma-corrected value and returns (the mutated) `u`.
The returned list is therefore also the final contents of the caller's
argument array `u`. -/
def gtrans (u gamma : List ℝ) : List ℝ :=
  loopInPlace gtransVal (recycleGamma gamma u.length) 0 u

/-- `colorlib.ftrans(u, gamma)`: inverse gamma correction, same in-place
structure as `gtrans`. -/
def ftrans (u gamma : List ℝ) : List ℝ :=
  loopInPlace ftransVal (recycleGamma gamma u.length) 0 u

/-- `colorlib.sRGB_to_RGB`: `ftrans` applied to each channel. -/
def sRGB_to_RGB (R G B : List ℝ) (gamma : ℝ) : List ℝ × List ℝ × List ℝ :=
  let γ := recycleGamma [gamma] R.length
  (ftrans R γ, ftrans G γ, ftrans B γ)

/-- `colorlib.RGB_to_sRGB`: `gtrans` applied to each channel. -/
def RGB_to_sRGB (R G B : List ℝ) (gamma : ℝ) : List ℝ × List ℝ × List ℝ :=
  let γ := recycleGamma [gamma] R.length
  (gtrans R γ, gtrans G γ, gtrans B γ)

/-- `colorlib.RGB_to_XYZ`.  The whitepoint arrives through `_get_white_`
as three arrays recycled from the scalars `XN`, `YN`, `ZN`; the formula of the
source multiplies every row by `YN` only (`XN` and `ZN` are accepted and
expanded but never appear in the returned expressions). -/
def RGB_to_XYZ (R G B : List ℝ) (XN YN ZN : ℝ) : List ℝ × List ℝ × List ℝ :=
  (map3 (fun r g b => YN * (0.412453 * r + 0.357580 * g + 0.180423 * b)) R G B,
   map3 (fun r g b => YN * (0.212671 * r + 0.715160 * g + 0.072169 * b)) R G B,
   map3 (fun r g b => YN * (0.019334 * r + 0.119193 * g + 0.950227 * b)) R G B)

/-- `colorlib.XYZ_to_RGB`; as in the source only `YN` is used. -/
def XYZ_to_RGB (X Y Z : List ℝ) (XN YN ZN : ℝ) : List ℝ × List ℝ × List ℝ :=
  (map3 (fun x y z => (3.240479 * x - 1.537150 * y - 0.498535 * z) / YN) X Y Z,
   map3 (fun x y z => (-0.969256 * x + 1.875992 * y + 0.041556 * z) / YN) X Y Z,
   map3 (fun x y z => (0.055648 * x - 0.204043 * y + 1.057311 * z) / YN) X Y Z)

/-- One element of `colorlib.XYZ_to_uv`: chromaticity coordinates with the
`np.where(t != 0)` guard (entries with `t = 0` keep the zero fill value). -/
def xyzToUvEl (X Y Z : ℝ) : ℝ × ℝ :=
  let t := X + Y + Z
  let x := if t ≠ 0 then X / t else 0
  let y := if t ≠ 0 then Y / t else 0
  (2.0 * x / (6 * y - x + 1.5), 4.5 * y / (6 * y - x + 1.5))

/-- `colorlib.XYZ_to_uv` on whole vectors. -/
def XYZ_to_uv (X Y Z : List ℝ) : List ℝ × List ℝ :=
  (map3 (fun x y z => (xyzToUvEl x y z).1) X Y Z,
   map3 (fun x y z => (xyzToUvEl x y z).2) X Y Z)

/-- `colorlib.XYZ_to_LUV` (whitepoint scalars recycled by `_get_white_`). -/
def XYZ_to_LUV (X Y Z : List ℝ) (XN YN ZN : ℝ) : List ℝ × List ℝ × List ℝ :=
  let uvN := xyzToUvEl XN YN ZN
  let Lf : ℝ → ℝ := fun y =>
    if y / YN > EPSILON then 116 * (y / YN) ^ ((1 : ℝ) / 3) - 16 else KAPPA * (y / YN)
  (map3 (fun _ y _ => Lf y) X Y Z,
   map3 (fun x y z => 13 * Lf y * ((xyzToUvEl x y z).1 - uvN.1)) X Y Z,
   map3 (fun x y z => 13 * Lf y * ((xyzToUvEl x y z).2 - uvN.2)) X Y Z)

/-- `np.finfo(float).eps * 10`, the divide-by-zero guard of `LUV_to_XYZ`. -/
def epsTen : ℝ := 10 / 2 ^ (52 : ℕ)

/-- One element of `colorlib.LUV_to_XYZ`.  Elements with
`L <= 0 and U == 0 and V == 0` are excluded from the transformation and keep
the zero fill values; for the others `Y` is computed piecewise and `X`, `Z`
via the `u`,`v` chromaticities with `L` clamped to `np.finfo(float).eps*10`.
(The source computes the `X`/`Z` expressions vectorised over all entries, but
for excluded entries `Y = 0` makes both expressions vanish, matching the
elementwise form.) -/
def luvToXyzEl (L U V : ℝ) (uN vN YN : ℝ) : ℝ × ℝ × ℝ :=
  if L ≤ 0 ∧ U = 0 ∧ V = 0 then (0, 0, 0)
  else
    let Y : ℝ := YN * (if L > 8 then ((L + 16) / 116) ^ (3 : ℕ) else L / KAPPA)
    let L' := max epsTen L
    let u := U / (13 * L') + uN
    let v := V / (13 * L') + vN
    let X := 9.0 * Y * u / (4 * v)
    (X, Y, -X / 3 - 5 * Y + 3 * Y / v)

/-- `colorlib.LUV_to_XYZ` on whole vectors. -/
def LUV_to_XYZ (L U V : List ℝ) (XN YN ZN : ℝ) : List ℝ × List ℝ × List ℝ :=
  let uvN := xyzToUvEl XN YN ZN
  (map3 (fun l u v => (luvToXyzEl l u v uvN.1 uvN.2 YN).1) L U V,
   map3 (fun l u v => (luvToXyzEl l u v uvN.1 uvN.2 YN).2.1) L U V,
   map3 (fun l u v => (luvToXyzEl l u v uvN.1 uvN.2 YN).2.2) L U V)

/-- Support function `f` of `colorlib.XYZ_to_LAB`. -/
def labF (t : ℝ) : ℝ :=
  if t > EPSILON then t ^ ((1 : ℝ) / 3) else (KAPPA / 116) * t + 16 / 116

/-- `colorlib.XYZ_to_LAB`. -/
def XYZ_to_LAB (X Y Z : List ℝ) (XN YN ZN : ℝ) : List ℝ × List ℝ × List ℝ :=
  let Lf : ℝ → ℝ := fun y =>
    if y / YN > EPSILON then 116 * (y / YN) ^ ((1 : ℝ) / 3) - 16 else KAPPA * (y / YN)
  (map3 (fun _ y _ => Lf y) X Y Z,
   map3 (fun x y _ => 500 * (labF (x / XN) - labF (y / YN))) X Y Z,
   map3 (fun _ y z => 200 * (labF (y / YN) - labF (z / ZN))) X Y Z)

/-- One element of `colorlib.LAB_to_XYZ`. -/
def labToXyzEl (L A B : ℝ) (XN YN ZN : ℝ) : ℝ × ℝ × ℝ :=
  let Y : ℝ :=
    if L ≤ 0 then 0
    else if L ≤ 8.0 then L * YN / KAPPA
    else if L ≤ 100 then YN * ((L + 16) / 116) ^ (3 : ℕ)
    else YN
  let fy : ℝ :=
    if Y ≤ EPSILON * YN then (KAPPA / 116) * Y / YN + 16 / 116 else (Y / YN) ^ ((1 : ℝ) / 3)
  let fx := fy + A / 500
  let fz := fy - B / 200
  let X := if fx ^ (3 : ℕ) ≤ EPSILON then XN * (fx - 16 / 116) / (KAPPA / 116) else XN * fx ^ (3 : ℕ)
  let Z := if fz ^ (3 : ℕ) ≤ EPSILON then ZN * (fz - 16 / 116) / (KAPPA / 116) else ZN * fz ^ (3 : ℕ)
  (X, Y, Z)

/-- `colorlib.LAB_to_XYZ` on whole vectors. -/
def LAB_to_XYZ (L A B : List ℝ) (XN YN ZN : ℝ) : List ℝ × List ℝ × List ℝ :=
  (map3 (fun l a b => (labToXyzEl l a b XN YN ZN).1) L A B,
   map3 (fun l a b => (labToXyzEl l a b XN YN ZN).2.1) L A B,
   map3 (fun l a b => (labToXyzEl l a b XN YN ZN).2.2) L A B)

/-- `colorlib.LAB_to_polarLAB`: `H = RAD2DEG(arctan2(B, A))` wrapped into
range by the two `while` loops, `C = sqrt(A*A + B*B)`; returns `[L, C, H]`. -/
def LAB_to_polarLAB (L A B : List ℝ) : List ℝ × List ℝ × List ℝ :=
  (L,
   List.zipWith (fun a b => Real.sqrt (a * a + b * b)) A B,
   List.zipWith (fun a b => hueWrap (RAD2DEG (arctan2 b a))) A B)

/-- `colorlib.polarLAB_to_LAB`: `A = cos(DEG2RAD(H)) * C`, `B = sin(...) * C`. -/
def polarLAB_to_LAB (L C H : List ℝ) : List ℝ × List ℝ × List ℝ :=
  (L,
   List.zipWith (fun c h => Real.cos (DEG2RAD h) * c) C H,
   List.zipWith (fun c h => Real.sin (DEG2RAD h) * c) C H)

/-- `colorlib.LUV_to_polarLUV`: `C = sqrt(U*U + V*V)`,
`H = RAD2DEG(arctan2(V, U))` wrapped into range; returns `[L, C, H]`. -/
def LUV_to_polarLUV (L U V : List ℝ) : List ℝ × List ℝ × List ℝ :=
  (L,
   List.zipWith (fun u v => Real.sqrt (u * u + v * v)) U V,
   List.zipWith (fun u v => hueWrap (RAD2DEG (arctan2 v u))) U V)

/-- `colorlib.polarLUV_to_LUV`: `[L, C*cos(H), C*sin(H)]` with `H` in radians. -/
def polarLUV_to_LUV (L C H : List ℝ) : List ℝ × List ℝ × List ℝ :=
  (L,
   List.zipWith (fun c h => c * Real.cos (DEG2RAD h)) C H,
   List.zipWith (fun c h => c * Real.sin (DEG2RAD h)) C H)

/-- Support function `gethsv` of `colorlib.sRGB_to_HSV`. -/
def gethsv (r g b : ℝ) : ℝ × ℝ × ℝ :=
  let x := min r (min g b)
  let y := max r (max g b)
  if y ≠ x then
    let f := if r = x then g - b else if g = x then b - r else r - g
    let i : ℝ := if r = x then 3 else if g = x then 5 else 1
    (60 * (i - f / (y - x)), (y - x) / y, y)
  else (0, 0, y)

/-- `colorlib.sRGB_to_HSV`, elementwise `gethsv`. -/
def sRGB_to_HSV (r g b : List ℝ) : List ℝ × List ℝ × List ℝ :=
  (map3 (fun x y z => (gethsv x y z).1) r g b,
   map3 (fun x y z => (gethsv x y z).2.1) r g b,
   map3 (fun x y z => (gethsv x y z).2.2) r g b)

/-- Support function `getrgb` of `colorlib.HSV_to_sRGB`.  The source's dead
test `if h == np.nan` is always false (NaN comparison) and is omitted.  The
sector index `i = floor(h/60)` selects one of the six branches; the source
reaches the final `else` only for `i` outside `0..6`, where it builds (but
never raises) an exception and returns `None` — modelled by NaN fills. -/
def getrgb (h s v : ℝ) : ℝ × ℝ × ℝ :=
  let h6 := h / 60
  let i : ℤ := Int.floor h6
  let f0 : ℝ := h6 - i
  let f : ℝ := if i % 2 = 0 then 1 - f0 else f0
  let m := v * (1 - s)
  let n := v * (1 - s * f)
  if i = 0 ∨ i = 6 then (v, n, m)
  else if i = 1 then (n, v, m)
  else if i = 2 then (m, v, n)
  else if i = 3 then (m, n, v)
  else if i = 4 then (n, m, v)
  else if i = 5 then (v, m, n)
  else (npNan, npNan, npNan)

/-- `colorlib.HSV_to_sRGB`, elementwise `getrgb`. -/
def HSV_to_sRGB (h s v : List ℝ) : List ℝ × List ℝ × List ℝ :=
  (map3 (fun x y z => (getrgb x y z).1) h s v,
   map3 (fun x y z => (getrgb x y z).2.1) h s v,
   map3 (fun x y z => (getrgb x y z).2.2) h s v)

/-- Support function `gethls` of `colorlib.sRGB_to_HLS`.  The source assigns
`h` by three consecutive `if`s (`r == max`, `g == max`, `b == max`), so the
last matching test wins; this is the equivalent nested conditional. -/
def gethls (r g b : ℝ) : ℝ × ℝ × ℝ :=
  let mn := min r (min g b)
  let mx := max r (max g b)
  let l := (mx + mn) / 2
  if mx ≠ mn then
    let s := if l < 0.5 then (mx - mn) / (mx + mn) else (mx - mn) / (2 - mx - mn)
    let h0 : ℝ :=
      if b = mx then 4 + (r - g) / (mx - mn)
      else if g = mx then 2 + (b - r) / (mx - mn)
      else (g - b) / (mx - mn)
    let h1 := h0 * 60
    let h2 := if h1 < 0 then h1 + 360 else h1
    let h3 := if h2 > 360 then h2 - 360 else h2
    (h3, l, s)
  else (0, l, 0)

/-- `colorlib.sRGB_to_HLS`, elementwise `gethls`; returns `[h, l, s]`. -/
def sRGB_to_HLS (r g b : List ℝ) : List ℝ × List ℝ × List ℝ :=
  (map3 (fun x y z => (gethls x y z).1) r g b,
   map3 (fun x y z => (gethls x y z).2.1) r g b,
   map3 (fun x y z => (gethls x y z).2.2) r g b)

/-- Support function `qtrans` of `colorlib.HLS_to_sRGB`. -/
def qtrans (q1 q2 hue : ℝ) : ℝ :=
  let hue1 := if hue > 360 then hue - 360 else hue
  let hue2 := if hue1 < 0 then hue1 + 360 else hue1
  if hue2 < 60 then q1 + (q2 - q1) * hue2 / 60
  else if hue2 < 180 then q2
  else if hue2 < 240 then q1 + (q2 - q1) * (240 - hue2) / 60
  else q1

/-- Support function `getrgb` of `colorlib.HLS_to_sRGB`. -/
def getrgbHls (h l s : ℝ) : ℝ × ℝ × ℝ :=
  let p2 := if l ≤ 0.5 then l * (1 + s) else l + s - l * s
  let p1 := 2 * l - p2
  if s = 0 then (l, l, l)
  else (qtrans p1 p2 (h + 120), qtrans p1 p2 h, qtrans p1 p2 (h - 120))

/-- `colorlib.HLS_to_sRGB`, elementwise. -/
def HLS_to_sRGB (h l s : List ℝ) : List ℝ × List ℝ × List ℝ :=
  (map3 (fun x y z => (getrgbHls x y z).1) h l s,
   map3 (fun x y z => (getrgbHls x y z).2.1) h l s,
   map3 (fun x y z => (getrgbHls x y z).2.2) h l s)

/-- Hex digit of `"{:02X}"` formatting (uppercase). -/
def hexDigitChar (n : ℕ) : Char :=
  if n < 10 then Char.ofNat (48 + n) else Char.ofNat (55 + n)

/-- `"{:02X}".format(n)` for `0 <= n <= 255`. -/
def hex2 (n : ℕ) : String :=
  String.mk [hexDigitChar (n / 16), hexDigitChar (n % 16)]

/-- `applyfun` of `colorlib.sRGB_to_hex.gethex`:
`np.asarray(x * 255. + .5, dtype=int)` (truncation) and `#RRGGBB` formatting. -/
def gethexEl (r g b : ℝ) : String :=
  "#" ++ hex2 (pyInt (r * 255 + 0.5)).toNat ++ hex2 (pyInt (g * 255 + 0.5)).toNat
      ++ hex2 (pyInt (b * 255 + 0.5)).toNat

/-- One element of `colorlib.sRGB_to_hex`.  With `fixup` the channels are
clamped into `[0,1]` (`rgbfixup`); without, out-of-range channels become NaN
(`rgbcleanup`), and elements with a NaN channel yield the `np.nan` sentinel
(`none`) instead of a hex string. -/
def sRGBToHexEl (fixup : Bool) (r g b : ℝ) : Option String :=
  let fix : ℝ → Option ℝ :=
    if fixup then fun e => some (max 0 (min 1 e))
    else fun e => if 0 ≤ e ∧ e ≤ 1 then some e else none
  match fix r, fix g, fix b with
  | some r', some g', some b' => some (gethexEl r' g' b')
  | _, _, _ => none

/-- `colorlib.sRGB_to_hex` over whole vectors. -/
def sRGB_to_hex (r g b : List ℝ) (fixup : Bool) : List (Option String) :=
  map3Opt (sRGBToHexEl fixup) r g b
where
  /-- elementwise zip of the three channels -/
  map3Opt (f : ℝ → ℝ → ℝ → Option String) : List ℝ → List ℝ → List ℝ → List (Option String)
    | a :: as, b :: bs, c :: cs => f a b c :: map3Opt f as bs cs
    | _, _, _ => []

/-- A character of `[0-9A-Fa-f]`. -/
def isHexDig (c : Char) : Bool :=
  c.isDigit || ('A' ≤ c && c ≤ 'F') || ('a' ≤ c && c ≤ 'f')

/-- The validation regex `^#[0-9A-Fa-f]{6}([0-9]{2})?$` of
`colorlib.hex_to_sRGB.validhex` (note: the optional alpha group accepts
decimal digits only). -/
def validHexStr (s : String) : Bool :=
  match s.toList with
  | '#' :: c1 :: c2 :: c3 :: c4 :: c5 :: c6 :: rest =>
    [c1, c2, c3, c4, c5, c6].all isHexDig &&
    (match rest with
     | [] => true
     | [d1, d2] => d1.isDigit && d2.isDigit
     | _ => false)
  | _ => false

/-- Numeric value of a hex digit (`int(_, 16)` on one character). -/
def hexDigVal (c : Char) : ℕ :=
  if c.isDigit then c.toNat - 48
  else if 'a' ≤ c then c.toNat - 87
  else c.toNat - 55

/-- One element of `colorlib.hex_to_sRGB`: `int(x[i:i+2], 16) / 255.` for
`i in (1, 3, 5)` on valid strings; the NaN fill value otherwise. -/
def hexToSRGBEl (s : String) : ℝ × ℝ × ℝ :=
  if validHexStr s then
    match s.toList with
    | _ :: c1 :: c2 :: c3 :: c4 :: c5 :: c6 :: _ =>
      (((hexDigVal c1 * 16 + hexDigVal c2 : ℕ) : ℝ) / 255,
       ((hexDigVal c3 * 16 + hexDigVal c4 : ℕ) : ℝ) / 255,
       ((hexDigVal c5 * 16 + hexDigVal c6 : ℕ) : ℝ) / 255)
    | _ => (npNan, npNan, npNan)
  else (npNan, npNan, npNan)

/-- `colorlib.hex_to_sRGB` over a vector of hex strings. -/
def hex_to_sRGB (hex_ : List String) : List ℝ × List ℝ × List ℝ :=
  (hex_.map (fun s => (hexToSRGBEl s).1),
   hex_.map (fun s => (hexToSRGBEl s).2.1),
   hex_.map (fun s => (hexToSRGBEl s).2.2))

/-!
## The color object state machine (`colorobject` and its ten subclasses)
-/

/-- The channel dictionary `_data_` of a color object, tagged by the class
the object currently has (conversions assign `self.__class__`). The `hexd`
variant also records the numpy string dtype width of the `hex_` array
(`none` = object/float dtype, i.e. no fixed width); entries that hold the
`np.nan` float instead of a string are `none`. -/
inductive ColorData where
  | xyz (X Y Z : List ℝ)
  | luv (L U V : List ℝ)
  | lab (L A B : List ℝ)
  | polarluv (H C L : List ℝ)
  | polarlab (L A B : List ℝ)
  | rgb (R G B : List ℝ)
  | srgb (R G B : List ℝ)
  | hsv (H S V : List ℝ)
  | hls (H L S : List ℝ)
  | hexd (width : Option ℕ) (hex_ : List (Option String))

/-- `self.__class__.__name__`. -/
def clsName : ColorData → String
  | .xyz .. => "CIEXYZ"
  | .luv .. => "CIELUV"
  | .lab .. => "CIELAB"
  | .polarluv .. => "polarLUV"
  | .polarlab .. => "polarLAB"
  | .rgb .. => "RGB"
  | .srgb .. => "sRGB"
  | .hsv .. => "HSV"
  | .hls .. => "HLS"
  | .hexd .. => "hexcols"

/-- A color object: current `_data_` (with class tag), the optional alpha
vector, the per-instance whitepoint `WHITEX`/`WHITEY`/`WHITEZ` and `GAMMA`. -/
structure ColorState where
  data : ColorData
  alpha : Option (List ℝ)
  whiteX : ℝ
  whiteY : ℝ
  whiteZ : ℝ
  gamma : ℝ

/-- `colorobject.ALLOWED`. -/
def ALLOWED : List String :=
  ["CIEXYZ", "CIELUV", "CIELAB", "polarLUV", "polarLAB",
   "RGB", "sRGB", "HCL", "HSV", "HLS", "hex"]

/-- The exceptions raised by the engine. `stackOverflow` stands for Python's
recursion limit, hit only when the (fueled) conversion recursion runs out. -/
inductive Err where
  | notAllowed (target : String)
  | ambiguous (source target : String)
  | cannot (source target : String)
  | valueError
  | stackOverflow
deriving DecidableEq

/-- `colorobject._transform_via_path_`: `for v in via: self.to(v, fixup)`;
an exception aborts the remaining hops and leaves the object in the state the
raising hop produced. -/
def runPath (step : ColorState → String → ColorState × Option Err) :
    ColorState → List String → ColorState × Option Err
  | s, [] => (s, none)
  | s, v :: rest =>
    match step s v with
    | (s', none) => runPath step s' rest
    | (s', some e) => (s', some e)

/-- `colorobject.hasalpha`. -/
def hasalpha (s : ColorState) : Bool := s.alpha.isSome

/-- numpy string-array dtype inference for the result of `sRGB_to_hex`:
a list of strings gets dtype `<Uw` with `w` the longest string (fixed-width,
assignments truncate); any `np.nan` entry forces a non-string dtype with no
truncation (`none`). -/
def npStrWidth (xs : List (Option String)) : Option ℕ :=
  if xs.all (fun o => o.isSome) then
    some (xs.foldr (fun o m => max (o.getD "").length m) 0)
  else none

/-- The `to(target, fixup)` method of the ten color classes, as a transition
on `ColorState`.  Python mutates `self` in place and raises on failure; here
the returned state is the object's contents after the call (unchanged when
the error was raised before any assignment to `_data_`), paired with the
exception if one was raised.  The `Nat` argument is recursion fuel for the
multi-hop paths (`_transform_via_path_` re-enters `to`). -/
def toM : Nat → ColorState → String → Bool → ColorState × Option Err
  | 0, s, _, _ => (s, some .stackOverflow)
  | Nat.succ fuel, s, target, fixup =>
    -- `_check_if_allowed_`
    if ¬ target ∈ ALLOWED then (s, some (.notAllowed target)) else
    let path := runPath (fun s' v => toM fuel s' v fixup) s
    match s.data with
    | .polarluv H C L =>
      if target = "HCL" ∨ target = "polarLUV" then (s, none)
      else if target = "CIELUV" then
        let r := polarLUV_to_LUV L C H
        ({ s with data := .luv r.1 r.2.1 r.2.2 }, none)
      else if target = "CIEXYZ" then path ["CIELUV", target]
      else if target = "CIELAB" then path ["CIELUV", "CIEXYZ", target]
      else if target = "RGB" then path ["CIELUV", "CIEXYZ", target]
      else if target = "sRGB" then path ["CIELUV", "CIEXYZ", target]
      else if target = "polarLAB" then path ["CIELUV", "CIEXYZ", "CIELAB", target]
      else if target = "hex" then path ["CIELUV", "CIEXYZ", "sRGB", target]
      else if target = "HLS" ∨ target = "HSV" then (s, some (.ambiguous "polarLUV" target))
      else (s, some (.cannot "polarLUV" target))
    | .luv L U V =>
      if target = "CIELUV" then (s, none)
      else if target = "CIEXYZ" then
        let r := LUV_to_XYZ L U V s.whiteX s.whiteY s.whiteZ
        ({ s with data := .xyz r.1 r.2.1 r.2.2 }, none)
      else if target = "HCL" ∨ target = "polarLUV" then
        let r := LUV_to_polarLUV L U V
        ({ s with data := .polarluv r.2.2 r.2.1 r.1 }, none)
      else if target = "CIELAB" then path ["CIEXYZ", target]
      else if target = "RGB" then path ["CIEXYZ", target]
      else if target = "sRGB" then path ["CIEXYZ", "RGB", target]
      else if target = "polarLAB" then path ["CIEXYZ", "CIELAB", target]
      else if target = "hex" then path ["CIEXYZ", "RGB", "sRGB", target]
      else if target = "HLS" ∨ target = "HSV" then (s, some (.ambiguous "CIELUV" target))
      else (s, some (.cannot "CIELUV" target))
    | .xyz X Y Z =>
      if target = "CIEXYZ" then (s, none)
      else if target = "CIELUV" then
        let r := XYZ_to_LUV X Y Z s.whiteX s.whiteY s.whiteZ
        ({ s with data := .luv r.1 r.2.1 r.2.2 }, none)
      else if target = "CIELAB" then
        let r := XYZ_to_LAB X Y Z s.whiteX s.whiteY s.whiteZ
        ({ s with data := .lab r.1 r.2.1 r.2.2 }, none)
      else if target = "RGB" then
        let r := XYZ_to_RGB X Y Z s.whiteX s.whiteY s.whiteZ
        ({ s with data := .rgb r.1 r.2.1 r.2.2 }, none)
      else if target = "polarLAB" then path ["CIELAB", target]
      else if target = "HCL" ∨ target = "polarLUV" then path ["CIELUV", target]
      else if target = "sRGB" then path ["RGB", target]
      else if target = "hex" then path ["RGB", "sRGB", target]
      else if target = "HLS" ∨ target = "HSV" then (s, some (.ambiguous "CIEXYZ" target))
      else (s, some (.cannot "CIEXYZ" target))
    | .rgb R G B =>
      if target = "RGB" then (s, none)
      else if target = "sRGB" then
        let r := RGB_to_sRGB R G B s.gamma
        ({ s with data := .srgb r.1 r.2.1 r.2.2 }, none)
      else if target = "CIEXYZ" then
        let r := RGB_to_XYZ R G B s.whiteX s.whiteY s.whiteZ
        ({ s with data := .xyz r.1 r.2.1 r.2.2 }, none)
      else if target = "HLS" ∨ target = "HSV" ∨ target = "hex" then path ["sRGB", target]
      else if target = "CIELUV" ∨ target = "CIELAB" then path ["CIEXYZ", target]
      else if target = "HCL" ∨ target = "polarLUV" then path ["CIEXYZ", "CIELUV", target]
      else if target = "polarLAB" then path ["CIEXYZ", "CIELAB", target]
      else (s, some (.cannot "RGB" target))
    | .srgb R G B =>
      if target = "sRGB" then (s, none)
      else if target = "RGB" then
        let r := sRGB_to_RGB R G B s.gamma
        ({ s with data := .rgb r.1 r.2.1 r.2.2 }, none)
      else if target = "hex" then
        let h := sRGB_to_hex R G B fixup
        ({ s with data := .hexd (npStrWidth h) h }, none)
      else if target = "HLS" then
        let r := sRGB_to_HLS R G B
        ({ s with data := .hls r.1 r.2.1 r.2.2 }, none)
      else if target = "HSV" then
        let r := sRGB_to_HSV R G B
        ({ s with data := .hsv r.1 r.2.1 r.2.2 }, none)
      else if target = "CIEXYZ" then path ["RGB", target]
      else if target = "CIELUV" ∨ target = "CIELAB" then path ["RGB", "CIEXYZ", target]
      else if target = "HCL" ∨ target = "polarLUV" then path ["RGB", "CIEXYZ", "CIELUV", target]
      else if target = "polarLAB" then path ["RGB", "CIEXYZ", "CIELAB", target]
      else (s, some (.cannot "sRGB" target))
    | .lab L A B =>
      if target = "CIELAB" then (s, none)
      else if target = "CIEXYZ" then
        let r := LAB_to_XYZ L A B s.whiteX s.whiteY s.whiteZ
        ({ s with data := .xyz r.1 r.2.1 r.2.2 }, none)
      else if target = "polarLAB" then
        let r := LAB_to_polarLAB L A B
        ({ s with data := .polarlab r.1 r.2.1 r.2.2 }, none)
      else if target = "CIELUV" then path ["CIEXYZ", target]
      else if target = "HCL" ∨ target = "polarLUV" then path ["CIEXYZ", "CIELUV", target]
      else if target = "RGB" then path ["CIEXYZ", target]
      else if target = "sRGB" then path ["CIEXYZ", "RGB", target]
      else if target = "hex" then path ["CIEXYZ", "RGB", "sRGB", target]
      else if target = "HLS" ∨ target = "HSV" then (s, some (.ambiguous "CIELAB" target))
      else (s, some (.cannot "CIELAB" target))
    | .polarlab L A B =>
      if target = "polarLAB" then (s, none)
      else if target = "CIELAB" then
        let r := polarLAB_to_LAB L A B
        ({ s with data := .lab r.1 r.2.1 r.2.2 }, none)
      else if target = "CIEXYZ" then path ["CIELAB", target]
      else if target = "CIELUV" then path ["CIELAB", "CIEXYZ", target]
      else if target = "HCL" ∨ target = "polarLUV" then path ["CIELAB", "CIEXYZ", "CIELUV", target]
      else if target = "RGB" then path ["CIELAB", "CIEXYZ", target]
      else if target = "sRGB" then path ["CIELAB", "CIEXYZ", "RGB", target]
      else if target = "hex" then path ["CIELAB", "CIEXYZ", "RGB", "sRGB", target]
      else if target = "HLS" ∨ target = "HSV" then (s, some (.ambiguous "polarLAB" target))
      else (s, some (.cannot "polarLAB" target))
    | .hsv H S V =>
      if target = "HSV" then (s, none)
      else if target = "sRGB" then
        let r := HSV_to_sRGB H S V
        ({ s with data := .srgb r.1 r.2.1 r.2.2 }, none)
      else if target = "RGB" then path ["sRGB", target]
      else if target = "hex" then path ["sRGB", target]
      else if target = "HLS" then path ["sRGB", target]
      else if target = "CIEXYZ" ∨ target = "CIELUV" ∨ target = "CIELAB" ∨ target = "polarLUV" ∨
              target = "HCL" ∨ target = "polarLAB" then (s, some (.ambiguous "HSV" target))
      else (s, some (.cannot "HSV" target))
    | .hls H L S =>
      if target = "HLS" then (s, none)
      else if target = "sRGB" then
        let r := HLS_to_sRGB H L S
        ({ s with data := .srgb r.1 r.2.1 r.2.2 }, none)
      else if target = "RGB" then path ["sRGB", target]
      else if target = "hex" then path ["sRGB", target]
      else if target = "HSV" then path ["sRGB", target]
      else if target = "CIEXYZ" ∨ target = "CIELUV" ∨ target = "CIELAB" ∨ target = "polarLUV" ∨
              target = "HCL" ∨ target = "polarLAB" then (s, some (.ambiguous "HLS" target))
      else (s, some (.cannot "HLS" target))
    | .hexd _ hx =>
      if target = "hex" ∨ target = "hexcols" then (s, none)
      else if target = "sRGB" then
        -- `hex_to_sRGB([x[0:7] for x in self.get("hex_")])`; `np.nan` entries
        -- of an object-dtype array stringify on slicing only through `<U9`
        -- arrays, where they are already the string `"nan"` (invalid).
        let r := hex_to_sRGB (hx.map (fun o => (o.getD "nan").take 7))
        ({ s with data := ColorData.srgb r.1 r.2.1 r.2.2, alpha := s.alpha }, none)
      else if target = "RGB" then path ["sRGB", target]
      else if target = "HLS" ∨ target = "HSV" then path ["sRGB", target]
      else if target = "CIEXYZ" then path ["sRGB", "RGB", target]
      else if target = "CIELUV" ∨ target = "CIELAB" then path ["sRGB", "RGB", "CIEXYZ", target]
      else if target = "HCL" ∨ target = "polarLUV" then path ["sRGB", "RGB", "CIEXYZ", "CIELUV", target]
      -- the source tests `to in "polarLAB"`: substring containment
      else if target.toList <:+: "polarLAB".toList then
        path ["sRGB", "RGB", "CIEXYZ", "CIELAB", target]
      else (s, some (.cannot "hexcols" target))

/-!
## Constructors (`__init__` via `_colorobject_check_input_arrays_`)
-/

/-- `np.max` over one channel (undefined on empty arrays, which raise in
numpy; modelled by `0`, never hit by a theorem below). -/
def npMax : List ℝ → ℝ
  | [] => 0
  | x :: xs => xs.foldl max x

/-- `colorobject._colorobject_check_input_arrays_`: iterates over the named
channel arrays (`alpha = None` entries are dropped beforehand).  For objects
of class `RGB` or `sRGB` (`isRGBLike`), each channel — alpha included — is
range-checked by `np.max(val) > 1. or np.max(val) < 0.` (note: the maximum,
not the minimum, is compared against `0`).  Afterwards all kept channels must
have equal length.  Any failure raises `ValueError`. -/
def checkChans (isRGBLike : Bool) (vals : List (List ℝ)) : Option Err :=
  if isRGBLike ∧ vals.any (fun v => npMax v > 1 ∨ npMax v < 0) then some .valueError
  else if ¬ vals.all (fun v => v.length = (vals.headD []).length) then some .valueError
  else none

/-- Default whitepoint and gamma every constructor installs
(`set_whitepoint(X = 95.047, Y = 100.000, Z = 108.883)`, `GAMMA = 2.4`). -/
def mkState (d : ColorData) (alpha : Option (List ℝ)) : ColorState :=
  ⟨d, alpha, 95.047, 100.000, 108.883, 2.4⟩

/-- `RGB.__init__(R, G, B, alpha)`. -/
def RGB_init (R G B : List ℝ) (alpha : Option (List ℝ)) : Except Err ColorState :=
  match checkChans true ([R, G, B] ++ alpha.toList) with
  | some e => .error e
  | none => .ok (mkState (.rgb R G B) alpha)

/-- `sRGB.__init__(R, G, B, alpha, gamma)`. -/
def sRGB_init (R G B : List ℝ) (alpha : Option (List ℝ)) (gamma : Option ℝ) :
    Except Err ColorState :=
  match checkChans true ([R, G, B] ++ alpha.toList) with
  | some e => .error e
  | none => .ok { mkState (.srgb R G B) alpha with gamma := gamma.getD 2.4 }

/-- `HSV.__init__(H, S, V, alpha)`: no range check (only `RGB`/`sRGB`
instances are range-checked by `_colorobject_check_input_arrays_`). -/
def HSV_init (H S V : List ℝ) (alpha : Option (List ℝ)) : Except Err ColorState :=
  match checkChans false ([H, S, V] ++ alpha.toList) with
  | some e => .error e
  | none => .ok (mkState (.hsv H S V) alpha)

/-- `HLS.__init__(H, L, S, alpha)`.  The source forwards
`alpha = None` to the input check instead of the constructor's `alpha`
argument (`self._colorobject_check_input_arrays_(H = H, L = L, S = S,
alpha = None)`), so a user-supplied alpha vector is discarded. -/
def HLS_init (H L S : List ℝ) (alpha : Option (List ℝ)) : Except Err ColorState :=
  match checkChans false ([H, L, S] ++ (none : Option (List ℝ)).toList) with
  | some e => .error e
  | none => .ok (mkState (.hls H L S) none)

/-- `polarLUV.__init__(H, C, L, alpha)` (also available as `HCL`). -/
def polarLUV_init (H C L : List ℝ) (alpha : Option (List ℝ)) : Except Err ColorState :=
  match checkChans false ([H, C, L] ++ alpha.toList) with
  | some e => .error e
  | none => .ok (mkState (.polarluv H C L) alpha)

/-- `CIELUV.__init__(L, U, V, alpha)`. -/
def CIELUV_init (L U V : List ℝ) (alpha : Option (List ℝ)) : Except Err ColorState :=
  match checkChans false ([L, U, V] ++ alpha.toList) with
  | some e => .error e
  | none => .ok (mkState (.luv L U V) alpha)

/-- `CIEXYZ.__init__(X, Y, Z, alpha)`. -/
def CIEXYZ_init (X Y Z : List ℝ) (alpha : Option (List ℝ)) : Except Err ColorState :=
  match checkChans false ([X, Y, Z] ++ alpha.toList) with
  | some e => .error e
  | none => .ok (mkState (.xyz X Y Z) alpha)

/-- `CIELAB.__init__(L, A, B, alpha)`. -/
def CIELAB_init (L A B : List ℝ) (alpha : Option (List ℝ)) : Except Err ColorState :=
  match checkChans false ([L, A, B] ++ alpha.toList) with
  | some e => .error e
  | none => .ok (mkState (.lab L A B) alpha)

/-- `polarLAB.__init__(L, A, B, alpha)`. -/
def polarLAB_init (L A B : List ℝ) (alpha : Option (List ℝ)) : Except Err ColorState :=
  match checkChans false ([L, A, B] ++ alpha.toList) with
  | some e => .error e
  | none => .ok (mkState (.polarlab L A B) alpha)

/-!
## `colorobject.colors(fixup, rev)`
-/

/-- `"{:02d}".format(z)`. -/
def fmt02d (z : ℤ) : String :=
  let s := toString z
  if s.length < 2 then "0" ++ s else s

/-- numpy setitem into a fixed-width string array: `res[i] += suffix`
silently truncates the concatenation to the array's dtype width. -/
def npSetStr (width : Option ℕ) (s : String) : String :=
  match width with
  | some w => s.take w
  | none => s

/-- `colorobject.colors(fixup, rev)`: converts a copy to hex, then, when the
converted copy has an alpha channel, executes
`res[i] += "{:02d}".format(int(self._data_["alpha"][i] * 100.))`
for every element whose (original) alpha is `< 1.0` — an assignment back into
the fixed-width numpy string array `res`, hence truncated to its dtype width.
Finally the list is optionally reversed and stringified (`np.nan` → `"nan"`). -/
def colorsM (fuel : Nat) (s : ColorState) (fixup rev : Bool) : Except Err (List String) :=
  match toM fuel s "hex" fixup with
  | (_, some e) => .error e
  | (x, none) =>
    match x.data with
    | .hexd w entries =>
      let strs : List (Option String) :=
        if hasalpha x then
          (List.range entries.length).map (fun i =>
            match entries.getD i none with
            | none => none
            | some str0 =>
              match s.alpha with
              | some av =>
                if av.getD i 1 < 1.0 then
                  some (npSetStr w (str0 ++ fmt02d (pyInt (av.getD i 1 * 100))))
                else some str0
              | none => some str0)
        else entries
      let ordered := if rev then strs.reverse else strs
      .ok (ordered.map (fun o => o.getD "nan"))
    | _ => .error .valueError

/-!
## `palettes.diverge_hcl.colors`: the generated HCL coordinates
-/

/-- `numpy.linspace(a, b, n)` (endpoint included). -/
def linspace (a b : ℝ) (n : ℕ) : List ℝ :=
  if n ≤ 1 then List.replicate n a
  else (List.range n).map (fun i => a + (b - a) * i / (n - 1))

/-- The H/C/L coordinates computed by `diverge_hcl.colors` before the hex
projection:
`p2 = p1 if not p2 else p2` (`None` or `0.0` fall back to `p1`),
`rval = linspace(1., -1., n)`,
`L = l2 - (l2 - l1) * power(abs(rval), p2)`,
`C = fmax(.1, c1 * power(abs(rval), p1))`,
`H[i] = h1 if rval[i] > 0 else h2`.  Returned as `(H, C, L)`. -/
def diverge_hcl_coords (h1 h2 c1 l1 l2 p1 : ℝ) (p2opt : Option ℝ) (n : ℕ) :
    List ℝ × List ℝ × List ℝ :=
  let p2 := match p2opt with
    | none => p1
    | some v => if v = 0 then p1 else v
  let rval := linspace 1 (-1) n
  (rval.map (fun t => if t > 0 then h1 else h2),
   rval.map (fun t => max 0.1 (c1 * |t| ^ p1)),
   rval.map (fun t => l2 - (l2 - l1) * |t| ^ p2))

/-- The five device-independent (CIE-derived) spaces. -/
def devIndep : ColorData → Bool
  | .xyz .. => true
  | .luv .. => true
  | .lab .. => true
  | .polarluv .. => true
  | .polarlab .. => true
  | _ => false

/-- The two device-dependent-only spaces HSV and HLS. -/
def isHsvHls : ColorData → Bool
  | .hsv .. => true
  | .hls .. => true
  | _ => false

end

/-!
## Supporting lemmas
-/

theorem loopInPlace_eq_zipWith_aux (f : ℝ → ℝ → ℝ) :
    ∀ (n i : ℕ) (u γ : List ℝ), u.length - i = n → γ.length = u.length →
      loopInPlace f γ i u = u.take i ++ List.zipWith f (u.drop i) (γ.drop i) := by
  intro n
  induction n with
  | zero =>
    intro i u γ hn hγ
    have hi : ¬ i < u.length := by omega
    rw [loopInPlace, dif_neg hi]
    rw [List.take_of_length_le (by omega), List.drop_eq_nil_of_le (by omega),
        List.drop_eq_nil_of_le (by omega)]
    simp
  | succ n ih =>
    intro i u γ hn hγ
    have hi : i < u.length := by omega
    have hiγ : i < γ.length := by omega
    rw [loopInPlace, dif_pos hi]
    rw [ih (i + 1) (u.set i (f u[i] (γ.getD i 0))) γ
        (by rw [List.length_set]; omega) (by rw [List.length_set]; exact hγ)]
    rw [List.set_eq_take_cons_drop _ hi]
    have hlen : (u.take i).length = i := List.length_take_of_le (le_of_lt hi)
    have htake : (u.take i ++ f u[i] (γ.getD i 0) :: u.drop (i + 1)).take (i + 1) =
        u.take i ++ [f u[i] (γ.getD i 0)] := by
      rw [List.take_append_eq_append_take, hlen, List.take_of_length_le (by omega)]
      simp
    have hdrop : (u.take i ++ f u[i] (γ.getD i 0) :: u.drop (i + 1)).drop (i + 1) =
        u.drop (i + 1) := by
      rw [List.drop_append_eq_append_drop, hlen, List.drop_eq_nil_of_le (by omega)]
      simp
    rw [htake, hdrop]
    have hu : u.drop i = u[i] :: u.drop (i + 1) := List.drop_eq_getElem_cons hi
    have hγ' : γ.drop i = γ[i] :: γ.drop (i + 1) := List.drop_eq_getElem_cons hiγ
    rw [hu, hγ', List.zipWith_cons_cons, List.getD_eq_getElem γ 0 hiγ]
    simp

theorem loopInPlace_eq_zipWith (f : ℝ → ℝ → ℝ) (u γ : List ℝ) (h : γ.length = u.length) :
    loopInPlace f γ 0 u = List.zipWith f u γ := by
  simpa using loopInPlace_eq_zipWith_aux f u.length 0 u γ (by omega) h

theorem mem_zipWith_exists {f : ℝ → ℝ → ℝ} :
    ∀ {xs ys : List ℝ} {c : ℝ}, c ∈ List.zipWith f xs ys → ∃ x y, c = f x y := by
  intro xs
  induction xs with
  | nil => intro ys c h; simp at h
  | cons x xs ih =>
    intro ys c h
    cases ys with
    | nil => simp at h
    | cons y ys =>
      rw [List.zipWith_cons_cons, List.mem_cons] at h
      rcases h with h | h
      · exact ⟨x, y, h⟩
      · exact ih h

/-!
## C5: only the Y whitepoint component enters the RGB↔XYZ transform
-/

/-- C5: For every RGB input and every pair of whitepoint specifications that
agree on the Y component `YN` but differ arbitrarily in `XN` and `ZN`,
`RGB_to_XYZ` returns identical results; likewise `XYZ_to_RGB`'s result
depends only on `YN` — a two-run noninterference statement. -/
theorem whitepoint_noninterference :
    (∀ (R G B : List ℝ) (YN XN₁ ZN₁ XN₂ ZN₂ : ℝ),
      RGB_to_XYZ R G B XN₁ YN ZN₁ = RGB_to_XYZ R G B XN₂ YN ZN₂) ∧
    (∀ (X Y Z : List ℝ) (YN XN₁ ZN₁ XN₂ ZN₂ : ℝ),
      XYZ_to_RGB X Y Z XN₁ YN ZN₁ = XYZ_to_RGB X Y Z XN₂ YN ZN₂) :=
  ⟨fun _ _ _ _ _ _ _ _ => rfl, fun _ _ _ _ _ _ _ _ => rfl⟩

/-!
## C8: `gtrans`/`ftrans` mutate their input array in place
-/

/-- C8 counterexample: after calling `gtrans(u, 2.4)` (resp. `ftrans`) on
`u = [0.002]`, the caller's array `u` — which the loop mutates in place and
which is the very object returned — holds `[0.02584]` (resp.
`[0.002/12.92]`), not its original values, refuting the claim that the
pairwise transforms leave their input vectors unchanged. -/
theorem gtrans_mutates_input :
    gtrans [0.002] [2.4] ≠ [0.002] ∧ ftrans [0.002] [2.4] ≠ [0.002] := by
  have hg : gtrans [0.002] [2.4] = [gtransVal 0.002 2.4] := by
    rw [gtrans]
    rw [loopInPlace_eq_zipWith _ _ _ (by simp [recycleGamma])]
    simp [recycleGamma]
  have hf : ftrans [0.002] [2.4] = [ftransVal 0.002 2.4] := by
    rw [ftrans]
    rw [loopInPlace_eq_zipWith _ _ _ (by simp [recycleGamma])]
    simp [recycleGamma]
  constructor
  · rw [hg]
    intro h
    have h2 : gtransVal 0.002 2.4 = 0.002 := by
      have := List.head_eq_of_cons_eq h
      simpa using this
    rw [gtransVal, if_neg (by norm_num)] at h2
    norm_num at h2
  · rw [hf]
    intro h
    have h2 : ftransVal 0.002 2.4 = 0.002 := by
      have := List.head_eq_of_cons_eq h
      simpa using this
    rw [ftransVal, if_neg (by norm_num)] at h2
    norm_num at h2

/-- C8 (amended): each call `gtrans(u, gamma)` / `ftrans(u, gamma)` writes
the elementwise gamma-transformed values back into the caller's array `u`
and returns that same array: after the call `u` holds
`zipWith (transform) u gamma` (with `gamma` recycled to the length of `u`),
not its original contents. -/
theorem gtrans_ftrans_inplace_spec (u gamma : List ℝ)
    (h : gamma.length = 1 ∨ gamma.length = u.length) :
    gtrans u gamma = List.zipWith gtransVal u (recycleGamma gamma u.length) ∧
    ftrans u gamma = List.zipWith ftransVal u (recycleGamma gamma u.length) := by
  have hlen : (recycleGamma gamma u.length).length = u.length := by
    rw [recycleGamma]
    rcases h with h | h
    · by_cases hc : gamma.length = u.length
      · rw [if_neg (by tauto)]; exact hc
      · rw [if_pos ⟨h, hc⟩, List.length_replicate]
    · rw [if_neg (by tauto)]; exact h
  exact ⟨loopInPlace_eq_zipWith _ _ _ hlen, loopInPlace_eq_zipWith _ _ _ hlen⟩

/-- Witness for `gtrans_ftrans_inplace_spec` at `u = [0.002]`, `gamma = [2.4]`. -/
theorem gtrans_ftrans_inplace_spec_witness :
    gtrans [0.002] [2.4] =
      List.zipWith gtransVal [0.002] (recycleGamma [2.4] 1) ∧
    ftrans [0.002] [2.4] =
      List.zipWith ftransVal [0.002] (recycleGamma [2.4] 1) := by
  have h := gtrans_ftrans_inplace_spec [0.002] [2.4] (Or.inl rfl)
  simpa using h

/-!
## C4: polar hues lie in `[0, 360)`
-/

theorem arctan2_mem_Ioc (y x : ℝ) : -Real.pi < arctan2 y x ∧ arctan2 y x ≤ Real.pi := by
  have hpi := Real.pi_pos
  have harctan_lt := Real.arctan_lt_pi_div_two (y / x)
  have hlt_arctan := Real.neg_pi_div_two_lt_arctan (y / x)
  rw [arctan2]
  split_ifs with h1 h2 h3 h4 h5
  · constructor <;> linarith
  · -- x < 0, 0 ≤ y: the ratio is nonpositive, so arctan(y/x) ≤ 0
    have hratio : y / x ≤ 0 := div_nonpos_of_nonneg_of_nonpos h3 (le_of_lt h2)
    have harctan_le : Real.arctan (y / x) ≤ 0 := by
      have := Real.arctan_strictMono.monotone hratio
      rwa [Real.arctan_zero] at this
    constructor <;> linarith
  · -- x < 0, y < 0: the ratio is positive, so arctan(y/x) > 0
    have hratio : 0 < y / x := div_pos_of_neg_of_neg (by linarith) h2
    have harctan_gt : 0 < Real.arctan (y / x) := by
      have := Real.arctan_strictMono hratio
      rwa [Real.arctan_zero] at this
    constructor <;> linarith
  · constructor <;> linarith
  · constructor <;> linarith
  · constructor <;> linarith

theorem rad2deg_arctan2_mem (y x : ℝ) :
    -180 < RAD2DEG (arctan2 y x) ∧ RAD2DEG (arctan2 y x) ≤ 180 := by
  obtain ⟨hl, hu⟩ := arctan2_mem_Ioc y x
  have hpi := Real.pi_pos
  have hc : (0 : ℝ) < 180 / Real.pi := by positivity
  rw [RAD2DEG]
  constructor
  · have := mul_lt_mul_of_pos_left hl hc
    have hval : 180 / Real.pi * -Real.pi = -180 := by
      field_simp
    linarith
  · have := mul_le_mul_of_nonneg_left hu (le_of_lt hc)
    have hval : 180 / Real.pi * Real.pi = 180 := by
      field_simp
    linarith

theorem hueSubLoop_of_le {x : ℝ} (h : x ≤ 360) : hueSubLoop x = x := by
  rw [hueSubLoop, dif_neg (by linarith)]

theorem hueAddLoop_of_nonneg {x : ℝ} (h : 0 ≤ x) : hueAddLoop x = x := by
  rw [hueAddLoop, dif_neg (by linarith)]

theorem hueWrap_mem_Ico {x : ℝ} (h1 : -180 < x) (h2 : x ≤ 180) :
    0 ≤ hueWrap x ∧ hueWrap x < 360 := by
  rw [hueWrap, hueSubLoop_of_le (by linarith)]
  by_cases hx : x < 0
  · rw [hueAddLoop, dif_pos hx, hueAddLoop_of_nonneg (by linarith)]
    constructor <;> linarith
  · rw [hueAddLoop_of_nonneg (by linarith)]
    constructor <;> linarith

/-- C4: every hue produced by `LUV_to_polarLUV` (and by `LAB_to_polarLAB`)
lies in the half-open interval `[0, 360)`: the `atan2` result in degrees is
brought into range by the two `while` loops, and the value `360` itself is
never returned. -/
theorem polar_hue_mem_Ico (L U V : List ℝ) :
    (∀ h ∈ (LUV_to_polarLUV L U V).2.2, 0 ≤ h ∧ h < 360) ∧
    (∀ h ∈ (LAB_to_polarLAB L U V).2.2, 0 ≤ h ∧ h < 360) := by
  constructor
  · intro h hmem
    rw [LUV_to_polarLUV] at hmem
    obtain ⟨u, v, rfl⟩ := mem_zipWith_exists hmem
    obtain ⟨hl, hu⟩ := rad2deg_arctan2_mem v u
    exact hueWrap_mem_Ico hl hu
  · intro h hmem
    rw [LAB_to_polarLAB] at hmem
    obtain ⟨a, b, rfl⟩ := mem_zipWith_exists hmem
    obtain ⟨hl, hu⟩ := rad2deg_arctan2_mem b a
    exact hueWrap_mem_Ico hl hu

/-- Witness for `polar_hue_mem_Ico`: the single hue of
`LUV_to_polarLUV([0], [1], [0])` is `0`, which lies in `[0, 360)`. -/
theorem polar_hue_mem_Ico_witness :
    (0 : ℝ) ∈ (LUV_to_polarLUV [0] [1] [0]).2.2 ∧ (0 ≤ (0 : ℝ) ∧ (0 : ℝ) < 360) := by
  have hmem : (0 : ℝ) ∈ (LUV_to_polarLUV [0] [1] [0]).2.2 := by
    rw [LUV_to_polarLUV]
    have h1 : arctan2 (0 : ℝ) 1 = 0 := by
      rw [arctan2, if_pos (by norm_num)]
      simp [Real.arctan_zero]
    have h2 : RAD2DEG (0 : ℝ) = 0 := by rw [RAD2DEG]; ring
    have h3 : hueWrap (0 : ℝ) = 0 := by
      rw [hueWrap, hueSubLoop_of_le (by norm_num), hueAddLoop_of_nonneg le_rfl]
    simp [h1, h2, h3]
  exact ⟨hmem, (polar_hue_mem_Ico [0] [1] [0]).1 0 hmem⟩

/-!
## C3: constructor range checking
-/

/-- C3 counterexample: the claim demands a validation error whenever a
device-dependent channel value lies outside `[0, 1]`, but the HSV
constructor accepts a value channel of `1.5` (the range check of
`_colorobject_check_input_arrays_` fires only for `RGB`/`sRGB` instances). -/
theorem hsv_out_of_range_accepted :
    HSV_init [150] [0.5] [1.5] none = .ok (mkState (.hsv [150] [0.5] [1.5]) none) ∧
    ¬ ((1.5 : ℝ) ∈ Set.Icc (0 : ℝ) 1) := by
  constructor
  · rw [HSV_init]
    norm_num [checkChans]
  · simp [Set.mem_Icc]
    norm_num

/-- C3 (amended): only the `RGB` and `sRGB` constructors range-check their
channels, raising a validation error when a channel (alpha included) has
`np.max(val) > 1` or `np.max(val) < 0`; in particular `RGB(1.5, 0.2, 0.3)`
raises.  Constructors of the other spaces (HSV value and HLS
lightness/saturation included) accept arbitrary channel values, and even for
`RGB` a negative entry passes unnoticed when the channel's maximum stays in
`[0, 1]`. -/
theorem constructor_range_check_spec :
    RGB_init [1.5] [0.2] [0.3] none = .error .valueError ∧
    RGB_init [-0.5, 0.5] [0.2, 0.2] [0.3, 0.3] none =
      .ok (mkState (.rgb [-0.5, 0.5] [0.2, 0.2] [0.3, 0.3]) none) ∧
    (∀ H S V : List ℝ, S.length = H.length → V.length = H.length →
      HSV_init H S V none = .ok (mkState (.hsv H S V) none)) ∧
    (∀ H L S : List ℝ, L.length = H.length → S.length = H.length →
      HLS_init H L S none = .ok (mkState (.hls H L S) none)) := by
  refine ⟨?_, ?_, ?_, ?_⟩
  · rw [RGB_init]
    norm_num [checkChans, npMax]
  · rw [RGB_init]
    norm_num [checkChans, npMax]
  · intro H S V h1 h2
    rw [HSV_init]
    norm_num [checkChans, h1, h2]
  · intro H L S h1 h2
    rw [HLS_init]
    norm_num [checkChans, h1, h2]

/-- Witness for `constructor_range_check_spec` at concrete channels. -/
theorem constructor_range_check_spec_witness :
    HSV_init [150] [0.7] [0.2] none = .ok (mkState (.hsv [150] [0.7] [0.2]) none) ∧
    HLS_init [150] [0.7] [0.2] none = .ok (mkState (.hls [150] [0.7] [0.2]) none) := by
  have h := constructor_range_check_spec
  exact ⟨h.2.2.1 [150] [0.7] [0.2] rfl rfl, h.2.2.2 [150] [0.7] [0.2] rfl rfl⟩

/-!
## C7: the HLS constructor discards its alpha argument
-/

/-- C7 (code bug): `HLS.__init__` forwards `alpha = None` to
`_colorobject_check_input_arrays_` instead of its `alpha` argument, so an
alpha vector passed to the HLS constructor is discarded and `hasalpha()`
is `False` — unlike e.g. the HSV constructor, which stores it. -/
theorem hls_constructor_drops_alpha :
    HLS_init [150] [0.5] [0.5] (some [0.5]) = .ok (mkState (.hls [150] [0.5] [0.5]) none) ∧
    hasalpha (mkState (.hls [150] [0.5] [0.5]) none) = false ∧
    HSV_init [150] [0.5] [0.5] (some [0.5]) =
      .ok (mkState (.hsv [150] [0.5] [0.5]) (some [0.5])) ∧
    hasalpha (mkState (.hsv [150] [0.5] [0.5]) (some [0.5])) = true := by
  refine ⟨?_, rfl, ?_, rfl⟩
  · rw [HLS_init]
    norm_num [checkChans]
  · rw [HSV_init]
    norm_num [checkChans]

/-!
## C2: ambiguous conversions raise and leave the object untouched
-/

/-- C2: converting any object in one of the five device-independent spaces
to `"HSV"` or `"HLS"` raises the ambiguous-conversion error and returns the
object exactly as it was (space tag, channel vectors, alpha, whitepoint);
symmetrically, HSV and HLS objects raise the ambiguous-conversion error for
each of the five device-independent target spaces. -/
theorem ambiguous_conversion_spec :
    (∀ (fuel : ℕ) (s : ColorState) (t : String) (fx : Bool),
      devIndep s.data = true → t = "HSV" ∨ t = "HLS" →
      toM (fuel + 1) s t fx = (s, some (.ambiguous (clsName s.data) t))) ∧
    (∀ (fuel : ℕ) (s : ColorState) (t : String) (fx : Bool),
      isHsvHls s.data = true →
      t ∈ (["CIEXYZ", "CIELUV", "CIELAB", "polarLUV", "polarLAB"] : List String) →
      toM (fuel + 1) s t fx = (s, some (.ambiguous (clsName s.data) t))) := by
  constructor
  · intro fuel s t fx hd ht
    obtain ⟨data, alpha, wx, wy, wz, g⟩ := s
    cases data <;>
      first
      | exact Bool.noConfusion hd
      | (rcases ht with rfl | rfl <;> rfl)
  · intro fuel s t fx hd ht
    obtain ⟨data, alpha, wx, wy, wz, g⟩ := s
    simp only [List.mem_cons, List.not_mem_nil, or_false] at ht
    cases data <;>
      first
      | exact Bool.noConfusion hd
      | (rcases ht with rfl | rfl | rfl | rfl | rfl <;> rfl)

/-- Witness for `ambiguous_conversion_spec`:
`polarLUV(260, 80, 30).to("HSV")` raises the ambiguous-conversion error and
the object is still polarLUV with channels 260, 80, 30. -/
theorem ambiguous_conversion_spec_witness :
    toM 1 (mkState (.polarluv [260] [80] [30]) none) "HSV" true =
      (mkState (.polarluv [260] [80] [30]) none, some (.ambiguous "polarLUV" "HSV")) ∧
    toM 1 (mkState (.hsv [150] [0.5] [0.5]) none) "CIELAB" true =
      (mkState (.hsv [150] [0.5] [0.5]) none, some (.ambiguous "HSV" "CIELAB")) := by
  constructor
  · exact ambiguous_conversion_spec.1 0 (mkState (.polarluv [260] [80] [30]) none)
      "HSV" true rfl (Or.inl rfl)
  · exact ambiguous_conversion_spec.2 0 (mkState (.hsv [150] [0.5] [0.5]) none)
      "CIELAB" true rfl
      (List.mem_cons_of_mem _ (List.mem_cons_of_mem _ (List.mem_cons_self _ _)))

/-!
## C6: alpha is carried through every conversion hop untouched
-/

theorem runPath_alpha (step : ColorState → String → ColorState × Option Err)
    (h : ∀ s v, ((step s v).1).alpha = s.alpha) :
    ∀ (via : List String) (s : ColorState), ((runPath step s via).1).alpha = s.alpha := by
  intro via
  induction via with
  | nil => intro s; rfl
  | cons v rest ih =>
    intro s
    have h2 := h s v
    cases hstep : step s v with
    | mk s' e =>
      rw [hstep] at h2
      cases e with
      | none =>
        simp only [runPath, hstep]
        rw [ih s', h2]
      | some err =>
        simp only [runPath, hstep]
        exact h2

set_option maxHeartbeats 2000000 in
/-- C6: the `to(target, fixup)` transition never changes the alpha vector:
whatever the current space, the target and the outcome (success, ambiguous,
unsupported, or mid-path failure), the state after the call carries exactly
the alpha of the state before it.  Since every multi-hop conversion is a
sequence of such transitions, alpha is preserved at every intermediate hop,
and an object without alpha (`none`) never gains one. -/
theorem to_preserves_alpha :
    ∀ (fuel : ℕ) (s : ColorState) (t : String) (fx : Bool),
      ((toM fuel s t fx).1).alpha = s.alpha := by
  intro fuel
  induction fuel with
  | zero => intro s t fx; rfl
  | succ n ih =>
    intro s t fx
    have hpath := runPath_alpha (fun a b => toM n a b fx) (fun s' v => ih s' v fx)
    rw [toM]
    by_cases hA : ¬ t ∈ ALLOWED
    · rw [if_pos hA]
    · rw [if_neg hA]
      obtain ⟨data, alpha, wx, wy, wz, g⟩ := s
      cases data <;> dsimp only <;> split_ifs <;> first | rfl | apply hpath

/-!
## C9: `colors()` silently truncates the alpha suffix
-/

theorem pyInt_eq_of_floor {x : ℝ} {z : ℤ} (h0 : 0 ≤ x) (h1 : (z : ℝ) ≤ x) (h2 : x < z + 1) :
    pyInt x = z := by
  rw [pyInt, if_pos h0]
  exact Int.floor_eq_iff.mpr ⟨h1, h2⟩

theorem sRGBToHexEl_one : sRGBToHexEl true 1 1 1 = some "#FFFFFF" := by
  have hint : pyInt ((1 : ℝ) * 255 + 0.5) = 255 := by
    apply pyInt_eq_of_floor <;> norm_num
  have hfix : max (0 : ℝ) (min 1 1) = 1 := by norm_num
  simp only [sRGBToHexEl]
  simp [hfix]
  rw [gethexEl, hint]
  rfl

theorem toM_srgb_one_hex :
    toM 1 (mkState (.srgb [1] [1] [1]) (some [0.5])) "hex" true =
      (mkState (.hexd (some 7) [some "#FFFFFF"]) (some [0.5]), none) := by
  have hhex : sRGB_to_hex [1] [1] [1] true = [some "#FFFFFF"] := by
    simp [sRGB_to_hex, sRGB_to_hex.map3Opt, sRGBToHexEl_one]
  have hw : npStrWidth [some "#FFFFFF"] = some 7 := rfl
  simp [toM, ALLOWED, mkState, hhex, hw]

/-- C9 (code bug): `colors()` on a converted color object with
`alpha = 0.5` returns the plain 7-character hex string.  The conversion to
hex stores the strings in a numpy array of dtype `<U7`, so the statement
`res[i] += "{:02d}".format(int(alpha * 100.))` writes the 9-character
concatenation back into a 7-character slot and numpy silently truncates it —
the documented (and claimed) `<hex><2-digit alpha>` suffix never survives for
objects converted to hex.  Here: `sRGB(1,1,1, alpha=0.5).colors()` yields
`["#FFFFFF"]`, not `["#FFFFFF50"]`. -/
theorem colors_truncates_alpha_suffix :
    colorsM 1 (mkState (.srgb [1] [1] [1]) (some [0.5])) true false = .ok ["#FFFFFF"] ∧
    (0.5 : ℝ) < 1.0 ∧ "#FFFFFF".length = 7 := by
  refine ⟨?_, by norm_num, rfl⟩
  have hint : pyInt ((0.5 : ℝ) * 100) = 50 := by
    apply pyInt_eq_of_floor <;> norm_num
  rw [colorsM, toM_srgb_one_hex]
  norm_num [mkState, hasalpha, npSetStr, hint, List.range_succ]
  have h50 : pyInt (50 : ℝ) = 50 := by
    apply pyInt_eq_of_floor <;> norm_num
  rw [h50]
  rfl

/-!
## C10: the diverging palette is mirrored around its center
-/

/-- C10: for `diverge_hcl` with `n = 5`, `h = [260, 0]`, `c = 80`,
`l = [30, 90]`, `power = 1.5`, the five generated HCL coordinates (before hex
projection) follow `|t|` over `t = linspace(1, -1, 5)`: the coordinate lists
are mirrored around the center, the middle element has strictly the highest
luminance and strictly the lowest chroma, the first element's hue is
`h1 = 260` and the last element's hue is `h2 = 0` (hue assigned by the sign
of the ramp value `rval`, the center `rval = 0` taking `h2`). -/
theorem diverge_hcl_center_spec :
    (diverge_hcl_coords 260 0 80 30 90 1.5 none 5).1 = [260, 260, 0, 0, 0] ∧
    (diverge_hcl_coords 260 0 80 30 90 1.5 none 5).2.1 =
      [80, 80 * (0.5 : ℝ) ^ (1.5 : ℝ), 0.1, 80 * (0.5 : ℝ) ^ (1.5 : ℝ), 80] ∧
    (diverge_hcl_coords 260 0 80 30 90 1.5 none 5).2.2 =
      [30, 90 - 60 * (0.5 : ℝ) ^ (1.5 : ℝ), 90, 90 - 60 * (0.5 : ℝ) ^ (1.5 : ℝ), 30] ∧
    90 - 60 * (0.5 : ℝ) ^ (1.5 : ℝ) < 90 ∧ (30 : ℝ) < 90 ∧
    0.1 < 80 * (0.5 : ℝ) ^ (1.5 : ℝ) ∧ (0.1 : ℝ) < 80 := by
  have h2 : (0.5 : ℝ) ^ (2 : ℝ) = 0.25 := by
    rw [show (2 : ℝ) = ((2 : ℕ) : ℝ) by norm_num, Real.rpow_natCast]
    norm_num
  have hge : (0.25 : ℝ) ≤ (0.5 : ℝ) ^ (1.5 : ℝ) := by
    rw [← h2]
    exact Real.rpow_le_rpow_of_exponent_ge (by norm_num) (by norm_num) (by norm_num)
  have hpos : (0 : ℝ) < (0.5 : ℝ) ^ (1.5 : ℝ) := Real.rpow_pos_of_pos (by norm_num) _
  have hlin : linspace 1 (-1) 5 = [1, 0.5, 0, -0.5, -1] := by
    rw [linspace, if_neg (by norm_num)]
    norm_num [List.range_succ]
  have habs1 : |(1 : ℝ)| = 1 := abs_one
  have habs05 : |(0.5 : ℝ)| = 0.5 := abs_of_pos (by norm_num)
  have habsm05 : |(-0.5 : ℝ)| = 0.5 := by rw [abs_neg]; exact habs05
  have habsm1 : |(-1 : ℝ)| = 1 := by rw [abs_neg]; exact abs_one
  have hp1 : |(1 : ℝ)| ^ (1.5 : ℝ) = 1 := by rw [habs1, Real.one_rpow]
  have hp05 : |(0.5 : ℝ)| ^ (1.5 : ℝ) = (0.5 : ℝ) ^ (1.5 : ℝ) := by rw [habs05]
  have hp0 : |(0 : ℝ)| ^ (1.5 : ℝ) = 0 := by
    rw [abs_zero, Real.zero_rpow (by norm_num)]
  have hpm05 : |(-0.5 : ℝ)| ^ (1.5 : ℝ) = (0.5 : ℝ) ^ (1.5 : ℝ) := by rw [habsm05]
  have hpm1 : |(-1 : ℝ)| ^ (1.5 : ℝ) = 1 := by rw [habsm1, Real.one_rpow]
  have hmaxHi : max (0.1 : ℝ) (80 * 1) = 80 := by
    rw [max_eq_right (by norm_num : (0.1 : ℝ) ≤ 80 * 1)]; norm_num
  have hmaxMid : max (0.1 : ℝ) (80 * (0.5 : ℝ) ^ (1.5 : ℝ)) = 80 * (0.5 : ℝ) ^ (1.5 : ℝ) :=
    max_eq_right (by nlinarith)
  have hmaxLo : max (0.1 : ℝ) (80 * 0) = 0.1 := by
    rw [max_eq_left (by norm_num : (80 : ℝ) * 0 ≤ 0.1)]
  refine ⟨?_, ?_, ?_, by nlinarith, by norm_num, by nlinarith, by norm_num⟩
  · simp only [diverge_hcl_coords, hlin, List.map_cons, List.map_nil]
    norm_num
  · simp only [diverge_hcl_coords, hlin, List.map_cons, List.map_nil,
      hp1, hp05, hp0, hpm05, hpm1, hmaxMid]
    rw [hmaxHi, hmaxLo]
  · simp only [diverge_hcl_coords, hlin, List.map_cons, List.map_nil,
      hp1, hp05, hp0, hpm05, hpm1]
    norm_num

/-!
## The RGB↔XYZ matrices are not exact inverses

The 6-decimal matrix literals of `RGB_to_XYZ` / `XYZ_to_RGB` compose to a
map that already misses the identity on pure red (the first diagonal entry of
the product is `0.999999381647`).  An exact reproduction of hex strings
through `Hex→…→polarLUV→…→Hex` can therefore only come from the hex
quantization absorbing this error together with the float64 roundoff of the
transcendental steps — it is a floating-point matter, not an algebraic
identity of the formulas.
-/

theorem rgb_xyz_matrices_not_exact_inverses :
    (XYZ_to_RGB (RGB_to_XYZ [1] [0] [0] 95.047 100 108.883).1
        (RGB_to_XYZ [1] [0] [0] 95.047 100 108.883).2.1
        (RGB_to_XYZ [1] [0] [0] 95.047 100 108.883).2.2 95.047 100 108.883).1 ≠ [1] := by
  simp only [RGB_to_XYZ, XYZ_to_RGB, map3]
  intro h
  have h1 := List.head_eq_of_cons_eq h
  norm_num at h1

end Colorspace
